import Mathlib

/-!
# go-gmo: parameter translation (`deferred`) and query encoding (`aozorabank`)

A shallow embedding of `deferred/deffered.go` and of the request encoding
exercised by `aozorabank/transfer_test.go`.

Conventions of the embedding:

* a Go pointer `*T` is an `Option T` (`none` is `nil`); values are compared by
  value, pointer identity is not tracked;
* a Go slice `[]T` is an `Option (List T)`: `none` is the nil slice, `some []`
  a non-nil slice of length zero;
* a function that may fail at run time returns `Except RuntimeError _`; the only
  failure of the translated code is the dereference of a nil pointer.
-/

namespace Deferred

/-- Run-time failures of the translated Go code. -/
inductive RuntimeError where
  | nilDereference
deriving DecidableEq, Repr

/-! ## Public model (declared in `deffered.go`) -/

/-- Go: `type Buyer struct` (lines 3-25). -/
structure Buyer where
  ShopTransactionID : String
  ShopOrderDate : String
  FullName : String
  FullNameKana : String
  ZipCode : String
  Address : String
  CompanyName : String
  DepartmentName : String
  Tel1 : String
  Tel2 : String
  Email : String
  Email2 : String
  BilledAmount : String
  GMOExtend1 : String
  PaymentType : String
  Sex : String
  BirthDay : String
  MemberRegistDate : String
  BuyCount : String
  BuyAmountTotal : String
  MemberID : String
deriving DecidableEq, Repr

/-- Go: `type DeliveryCustomer struct` (lines 74-82). -/
structure DeliveryCustomer where
  FullName : String
  FullNameKana : String
  ZipCode : String
  Address : String
  CompanyName : String
  DepartmentName : String
  Tel : String
deriving DecidableEq, Repr

/-- Go: `type Detail struct` (lines 97-106). -/
structure Detail where
  DetailName : String
  DetailPrice : String
  DetailQuantity : String
  GMOExtend2 : String
  GMOExtend3 : String
  GMOExtend4 : String
  DetailBrand : String
  DetailCategory : String
deriving DecidableEq, Repr

/-- Go: `type Details []*Detail` (line 122): a slice of pointers. -/
abbrev Details := Option (List (Option Detail))

/-- Go: `type Delivery struct` (lines 54-57). -/
structure Delivery where
  DeliveryCustomer : Option DeliveryCustomer
  Details : Details
deriving DecidableEq, Repr

/-- Go: `type Deliveries []*Delivery` (line 72). -/
abbrev Deliveries := Option (List (Option Delivery))

/-- Go: `type Error struct` (lines 139-142). -/
structure Error where
  ErrorCode : String
  ErrorMessage : String
deriving DecidableEq, Repr

/-- Go: `type Errors []*Error` (line 152). -/
abbrev Errors := Option (List (Option Error))

/-- Go: `type TransactionResult struct` (lines 154-158). -/
structure TransactionResult where
  ShopTransactionID : String
  GMOTransactionID : String
  AuthorResult : String
deriving DecidableEq, Repr

/-- Go: `type RegisterResponseParam struct` (lines 124-128). -/
structure RegisterResponseParam where
  Result : String
  Errors : Errors
  TransactionResult : Option TransactionResult
deriving DecidableEq, Repr

/-! ## Wire model

The declarations of the lower-case wire structs are not part of
`deffered.go`; their fields are read off the composite literals and field
selections of the functions below. -/

/-- Modelled from the spec: the declaration of the wire struct `buyer` is
missing from the source. Its fields are the ones the composite literal of
`Buyer.toParam` names (the spec's "same-named field in the wire struct"); each
receives a Go `string`. -/
structure buyer where
  ShopTransactionID : String
  ShopOrderDate : String
  FullName : String
  FullNameKana : String
  ZipCode : String
  Address : String
  CompanyName : String
  DepartmentName : String
  Tel1 : String
  Tel2 : String
  Email : String
  Email2 : String
  BilledAmount : String
  GMOExtend1 : String
  PaymentType : String
  Sex : String
  BirthDay : String
  MemberRegistDate : String
  BuyCount : String
  BuyAmountTotal : String
  MemberID : String
deriving DecidableEq, Repr

/-- Modelled from the spec: the declaration of the wire struct
`deliveryCustomer` is missing from the source. Its fields are the ones the
composite literal of `DeliveryCustomer.toParam` names. -/
structure deliveryCustomer where
  FullName : String
  FullNameKana : String
  ZipCode : String
  Address : String
  CompanyName : String
  DepartmentName : String
  Tel : String
deriving DecidableEq, Repr

/-- Modelled from the spec: the declaration of the wire struct `detail` is
missing from the source. Its fields are the ones the composite literal of
`Detail.toParam` names. -/
structure detail where
  DetailName : String
  DetailPrice : String
  DetailQuantity : String
  GMOExtend2 : String
  GMOExtend3 : String
  GMOExtend4 : String
  DetailBrand : String
  DetailCategory : String
deriving DecidableEq, Repr

/-- Modelled from the spec: the declaration of the wire struct `delivery` is
missing from the source. `Delivery.toParam` stores a `*deliveryCustomer` in
`DeliveryCustomer` and stores `o.Details`, a value of the public type
`Details`, in `Details` without any conversion, so that field holds public
`*Detail` pointers. -/
structure delivery where
  DeliveryCustomer : Option deliveryCustomer
  Details : Details
deriving DecidableEq, Repr

/-- Modelled from the spec: the declaration of the wire struct `gmoError` is
missing from the source. Its fields are the ones `NewError` selects. -/
structure gmoError where
  ErrorCode : String
  ErrorMessage : String
deriving DecidableEq, Repr

/-- Modelled from the spec: the declaration of the wire struct
`transactionResult` is missing from the source. Its fields are the ones
`NewTransactionResult` selects. -/
structure transactionResult where
  ShopTransactionID : String
  GMOTransactionID : String
  AuthorResult : String
deriving DecidableEq, Repr

/-- Modelled from the spec: the declaration of the wire struct
`registerResponseParam` is missing from the source. `NewRegisterResponseParam`
assigns its `Errors` to a field of type `Errors` and its `TransactionResult` to
a field of type `*TransactionResult` without conversion, so both fields already
hold values of the public types. -/
structure registerResponseParam where
  Result : String
  Errors : Errors
  TransactionResult : Option TransactionResult
deriving DecidableEq, Repr

/-! ## Translators (`deffered.go`) -/

/-- Go: `func (o *Buyer) toParam() *buyer` (lines 27-52). Reading a field of a
nil receiver fails; otherwise the address of a fresh `buyer` is returned. -/
def Buyer.toParam : Option Buyer → Except RuntimeError (Option buyer)
  | none => Except.error RuntimeError.nilDereference
  | some o =>
    Except.ok (some
      { ShopTransactionID := o.ShopTransactionID
        ShopOrderDate := o.ShopOrderDate
        FullName := o.FullName
        FullNameKana := o.FullNameKana
        ZipCode := o.ZipCode
        Address := o.Address
        CompanyName := o.CompanyName
        DepartmentName := o.DepartmentName
        Tel1 := o.Tel1
        Tel2 := o.Tel2
        Email := o.Email
        Email2 := o.Email2
        BilledAmount := o.BilledAmount
        GMOExtend1 := o.GMOExtend1
        PaymentType := o.PaymentType
        Sex := o.Sex
        BirthDay := o.BirthDay
        MemberRegistDate := o.MemberRegistDate
        BuyCount := o.BuyCount
        BuyAmountTotal := o.BuyAmountTotal
        MemberID := o.MemberID })

/-- Go: `func (o *DeliveryCustomer) toParam() *deliveryCustomer`
(lines 84-95). -/
def DeliveryCustomer.toParam :
    Option DeliveryCustomer → Except RuntimeError (Option deliveryCustomer)
  | none => Except.error RuntimeError.nilDereference
  | some o =>
    Except.ok (some
      { FullName := o.FullName
        FullNameKana := o.FullNameKana
        ZipCode := o.ZipCode
        Address := o.Address
        CompanyName := o.CompanyName
        DepartmentName := o.DepartmentName
        Tel := o.Tel })

/-- Go: `func (o *Detail) toParam() *detail` (lines 108-120). -/
def Detail.toParam : Option Detail → Except RuntimeError (Option detail)
  | none => Except.error RuntimeError.nilDereference
  | some o =>
    Except.ok (some
      { DetailName := o.DetailName
        DetailPrice := o.DetailPrice
        DetailQuantity := o.DetailQuantity
        GMOExtend2 := o.GMOExtend2
        GMOExtend3 := o.GMOExtend3
        GMOExtend4 := o.GMOExtend4
        DetailBrand := o.DetailBrand
        DetailCategory := o.DetailCategory })

/-- Go: `func (o *Delivery) toParam() *delivery` (lines 59-70). The closure of
lines 61-66 translates the delivery customer when the pointer is not nil and
yields nil otherwise; line 67 stores `o.Details` as it is. -/
def Delivery.toParam : Option Delivery → Except RuntimeError (Option delivery)
  | none => Except.error RuntimeError.nilDereference
  | some o =>
    let closure : Except RuntimeError (Option deliveryCustomer) :=
      match o.DeliveryCustomer with
      | some c => DeliveryCustomer.toParam (some c)
      | none => Except.ok none
    match closure with
    | Except.error e => Except.error e
    | Except.ok dc => Except.ok (some { DeliveryCustomer := dc, Details := o.Details })

/-- Go: `func NewRegisterResponseParam(o *registerResponseParam)
*RegisterResponseParam` (lines 130-137). -/
def NewRegisterResponseParam :
    Option registerResponseParam → Except RuntimeError (Option RegisterResponseParam)
  | none => Except.error RuntimeError.nilDereference
  | some o =>
    Except.ok (some
      { Result := o.Result
        Errors := o.Errors
        TransactionResult := o.TransactionResult })

/-- Go: `func NewError(o *gmoError) *Error` (lines 144-150). -/
def NewError : Option gmoError → Except RuntimeError (Option Error)
  | none => Except.error RuntimeError.nilDereference
  | some o =>
    Except.ok (some
      { ErrorCode := o.ErrorCode
        ErrorMessage := o.ErrorMessage })

/-- Go: `func NewTransactionResult(o *transactionResult) *TransactionResult`
(lines 160-167). -/
def NewTransactionResult :
    Option transactionResult → Except RuntimeError (Option TransactionResult)
  | none => Except.error RuntimeError.nilDereference
  | some o =>
    Except.ok (some
      { ShopTransactionID := o.ShopTransactionID
        GMOTransactionID := o.GMOTransactionID
        AuthorResult := o.AuthorResult })

end Deferred

namespace Aozorabank

/-! ## Request encoding of `GetTransferStatus`

Only `transfer_test.go` is part of the source: it builds
`GetTransferStatusRequest` values and compares the query string the client
sends with a reference string. The request type, its constants and the encoder
are modelled from the specification (section 4.2) and from those two reference
strings. -/

/-- Modelled from the spec: the declaration of `RequestTransferStatus` is
missing from the source. The test builds it from one positional value
(`{TransferStatusApplying}`), which the reference query shows as
`requestTransferStatus:2`. -/
structure RequestTransferStatus where
  TransferStatus : Int
deriving DecidableEq, Repr

/-- Modelled from the spec: the declaration of `GetTransferStatusRequest` is
missing from the source. The fields are the ones the composite literals of
`TestGetTransferStatus` name; the class and term codes are integers ("small
enumerations represented as integers"). A nil and an empty status list are
both the "zero/empty value" of the field, so the field is a plain list. -/
structure GetTransferStatusRequest where
  AccessToken : String
  AccountID : String
  QueryKeyClass : Int
  ApplyNo : String
  DateFrom : String
  DateTo : String
  NextItemKey : String
  RequestTransferStatuses : List RequestTransferStatus
  RequestTransferClass : Int
  RequestTransferTerm : Int
deriving DecidableEq, Repr

/-- Modelled from the spec: the constant `QueryKeyClassTransferApplies` is
missing from the source; the reference queries render it `queryKeyClass=1`. -/
def QueryKeyClassTransferApplies : Int := 1

/-- Modelled from the spec: the constant `TransferStatusApplying` is missing
from the source; the reference query renders it `requestTransferStatus:2`. -/
def TransferStatusApplying : Int := 2

/-- Modelled from the spec: the constant `RequestTransferClassAll` is missing
from the source; the reference query renders it `requestTransferClass=1`. -/
def RequestTransferClassAll : Int := 1

/-- Modelled from the spec: the constant
`RequestTransferTermTransferDesignatedDate` is missing from the source; the
reference query renders it `requestTransferTerm=2`. -/
def RequestTransferTermTransferDesignatedDate : Int := 2

/-- Modelled from the spec: the value of one request field, as the encoder
sees it: a string, an integer code or the status list. -/
inductive FieldValue where
  | str (s : String)
  | int (n : Int)
  | statuses (l : List RequestTransferStatus)
deriving DecidableEq, Repr

/-- Modelled from the spec: "zero/empty-value fields are omitted entirely":
the empty string, the integer zero and the list without elements. -/
def FieldValue.isZero : FieldValue → Bool
  | FieldValue.str s => s == ""
  | FieldValue.int n => n == 0
  | FieldValue.statuses l => l.isEmpty

/-- Modelled from the spec: one element of the status list in the "textual
representation of the list structure", `map[requestTransferStatus:2]` in the
reference query. -/
def renderStatus (s : RequestTransferStatus) : String :=
  "map[requestTransferStatus:" ++ toString s.TransferStatus ++ "]"

/-- Modelled from the spec: the text of a field value before escaping: a
string as it is, an integer in decimal, the list as `[e1 e2 ...]`. -/
def FieldValue.render : FieldValue → String
  | FieldValue.str s => s
  | FieldValue.int n => toString n
  | FieldValue.statuses l => "[" ++ " ".intercalate (l.map renderStatus) ++ "]"

/-- Modelled from the spec: the bytes of the UTF-8 form of a character. -/
def utf8Bytes (c : Char) : List Nat :=
  let v := c.toNat
  if v < 128 then [v]
  else if v < 2048 then [192 + v / 64, 128 + v % 64]
  else if v < 65536 then [224 + v / 4096, 128 + v / 64 % 64, 128 + v % 64]
  else [240 + v / 262144, 128 + v / 4096 % 64, 128 + v / 64 % 64, 128 + v % 64]

/-- Modelled from the spec: an upper-case hexadecimal digit, as in `%5B`. -/
def hexDigit (n : Nat) : Char :=
  "0123456789ABCDEF".toList.getD n '0'

/-- Modelled from the spec: the characters a query component keeps as they
are: ASCII letters, digits and `-`, `_`, `.`, `~`. -/
def unreserved (c : Char) : Bool :=
  c.isAlphanum || c == '-' || c == '_' || c == '.' || c == '~'

/-- Modelled from the spec: the escaped form of one character of a query
component: kept, `+` for a space, or `%XX` for each byte of its UTF-8 form
(the reference query has `%5B` for `[`, `%3A` for `:`, `%5D` for `]`). -/
def escapeChar (c : Char) : List Char :=
  if unreserved c then [c]
  else if c == ' ' then ['+']
  else (utf8Bytes c).flatMap (fun b => ['%', hexDigit (b / 16), hexDigit (b % 16)])

/-- Modelled from the spec: the encoder is missing from the source; this is
the escaping of a key or a value of the URL query string. -/
def QueryEscape (s : String) : List Char :=
  s.toList.flatMap escapeChar

/-- Modelled from the spec: the "fixed field-to-key mapping", in the order of
the fields of the request. The keys are those of the reference queries of
`TestGetTransferStatus`; the access token has no key there although both
requests of the test set it. -/
def queryFields (r : GetTransferStatusRequest) : List (String × FieldValue) :=
  [ ("accountId", FieldValue.str r.AccountID),
    ("queryKeyClass", FieldValue.int r.QueryKeyClass),
    ("applyNo", FieldValue.str r.ApplyNo),
    ("dateFrom", FieldValue.str r.DateFrom),
    ("dateTo", FieldValue.str r.DateTo),
    ("nextItemKey", FieldValue.str r.NextItemKey),
    ("requestTransferStatus", FieldValue.statuses r.RequestTransferStatuses),
    ("requestTransferClass", FieldValue.int r.RequestTransferClass),
    ("requestTransferTerm", FieldValue.int r.RequestTransferTerm) ]

/-- Lexicographic comparison of two texts, character code by character
code. -/
def lexLE : List Char → List Char → Bool
  | [], _ => true
  | _ :: _, [] => false
  | a :: as, b :: bs =>
    decide (a.toNat < b.toNat) || (decide (a.toNat = b.toNat) && lexLE as bs)

/-- The order of key names: `a` is not after `b` lexicographically. -/
def strLE (a b : String) : Prop := lexLE a.toList b.toList = true

instance strLE_decidable : DecidableRel strLE :=
  fun a b => inferInstanceAs (Decidable (lexLE a.toList b.toList = true))

/-- The order of key names, on key and value pairs. -/
def keyLE (a b : String × FieldValue) : Prop := strLE a.1 b.1

instance keyLE_decidable : DecidableRel keyLE :=
  fun a b => inferInstanceAs (Decidable (strLE a.1 b.1))

/-- Modelled from the spec: "every non-zero-value field of the request is
rendered ...; keys are emitted sorted by key name (lexicographic) ...
Zero/empty-value fields are omitted entirely". -/
def queryPairs (r : GetTransferStatusRequest) : List (String × FieldValue) :=
  ((queryFields r).filter (fun kv => !kv.2.isZero)).insertionSort keyLE

/-- Modelled from the spec: one `key=value` parameter, both sides escaped. -/
def encodePair (kv : String × FieldValue) : List Char :=
  QueryEscape kv.1 ++ '=' :: QueryEscape kv.2.render

/-- Modelled from the spec: the parameters joined with `&`. -/
def joinAmp : List (List Char) → List Char
  | [] => []
  | [s] => s
  | s :: t :: rest => s ++ '&' :: joinAmp (t :: rest)

/-- Modelled from the spec: the query string `GetTransferStatus` sends (the
`r.URL.RawQuery` the test server compares with its reference string). The
client method itself is missing from the source. -/
def rawQuery (r : GetTransferStatusRequest) : String :=
  String.mk (joinAmp ((queryPairs r).map encodePair))

/-- Segments of a query string between `&` separators. -/
def splitAmp : List Char → List (List Char)
  | [] => [[]]
  | c :: cs =>
    if c = '&' then [] :: splitAmp cs
    else
      match splitAmp cs with
      | [] => [[c]]
      | s :: ss => (c :: s) :: ss

/-- The keys a query string contains, in the order of their appearance: the
text before the first `=` of every non-empty segment. -/
def queryKeys (q : String) : List String :=
  ((splitAmp q.toList).filter (fun s => !s.isEmpty)).map
    (fun s => String.mk (s.takeWhile (fun c => c != '=')))

/-- The first request of `TestGetTransferStatus` (case "ok", lines 26-37). -/
def testRequestOk : GetTransferStatusRequest :=
  { AccessToken := "access_token"
    AccountID := "111111111111"
    QueryKeyClass := QueryKeyClassTransferApplies
    ApplyNo := "2018072902345678"
    DateFrom := "2018-07-30"
    DateTo := "2018-08-10"
    NextItemKey := "1234567890"
    RequestTransferStatuses := [{ TransferStatus := TransferStatusApplying }]
    RequestTransferClass := RequestTransferClassAll
    RequestTransferTerm := RequestTransferTermTransferDesignatedDate }

/-- The second request of `TestGetTransferStatus` (case "ok (required only)",
lines 46-50): the fields the literal does not name have their zero value. -/
def testRequestRequiredOnly : GetTransferStatusRequest :=
  { AccessToken := "access_token"
    AccountID := "111111111111"
    QueryKeyClass := QueryKeyClassTransferApplies
    ApplyNo := ""
    DateFrom := ""
    DateTo := ""
    NextItemKey := ""
    RequestTransferStatuses := []
    RequestTransferClass := 0
    RequestTransferTerm := 0 }

end Aozorabank

namespace Deferred

/-! ## Theorems about the translators -/

/-- C1: for every Delivery `d`, the result of `Delivery.toParam` has a nil
`DeliveryCustomer` exactly when `d.DeliveryCustomer` is nil, and when
`d.DeliveryCustomer` is present the result's `DeliveryCustomer` is present and
is the value `DeliveryCustomer.toParam` returns for it (so it is never a
default structure standing in for an absent one). -/
theorem Delivery_toParam_deliveryCustomer (d : Delivery) :
    ∃ p : delivery, Delivery.toParam (some d) = Except.ok (some p) ∧
      (p.DeliveryCustomer = none ↔ d.DeliveryCustomer = none) ∧
      (∀ c : DeliveryCustomer, d.DeliveryCustomer = some c →
        p.DeliveryCustomer.isSome = true ∧
        DeliveryCustomer.toParam (some c) = Except.ok p.DeliveryCustomer) := by
  obtain ⟨dc, ds⟩ := d
  cases dc with
  | none => exact ⟨⟨none, ds⟩, rfl, by simp, by simp⟩
  | some c =>
    refine ⟨_, rfl, by simp, ?_⟩
    intro c' hc
    cases hc
    exact ⟨rfl, rfl⟩

/-- C2: for every Delivery `d`, `Delivery.toParam` keeps the difference
between an absent and an empty `Details` list: an explicitly empty list gives a
present empty list (not nil), a nil list gives nil, and for any delivery
customer the two results are different values. -/
theorem Delivery_toParam_details_absent_vs_empty (d : Delivery) :
    (∃ p : delivery, Delivery.toParam (some d) = Except.ok (some p) ∧
      (d.Details = some [] → p.Details = some [] ∧ p.Details ≠ none) ∧
      (d.Details = none → p.Details = none)) ∧
    (∀ dc : Option DeliveryCustomer,
      Delivery.toParam (some { DeliveryCustomer := dc, Details := some [] }) ≠
      Delivery.toParam (some { DeliveryCustomer := dc, Details := none })) := by
  constructor
  · obtain ⟨dc, ds⟩ := d
    cases dc with
    | none =>
      refine ⟨⟨none, ds⟩, rfl, ?_, id⟩
      intro h
      cases h
      exact ⟨rfl, by simp⟩
    | some c =>
      refine ⟨_, rfl, ?_, id⟩
      intro h
      cases h
      exact ⟨rfl, by simp⟩
  · intro dc
    cases dc <;> simp [Delivery.toParam, DeliveryCustomer.toParam]

/-- C3 (counterexample): for the Delivery whose `Details` list has one nil
element, `Delivery.toParam` returns a result whose `Details` is that same
one-element list with the nil element, while `Detail.toParam` fails on the nil
element: the element of the result is not a translation made by
`Detail.toParam` and carries no field values. -/
theorem Delivery_toParam_details_not_translated :
    Delivery.toParam (some { DeliveryCustomer := none, Details := some [none] }) =
      Except.ok (some { DeliveryCustomer := none, Details := some [none] }) ∧
    Detail.toParam none = Except.error RuntimeError.nilDereference ∧
    ¬ ∃ w : detail, Detail.toParam none = Except.ok (some w) := by
  refine ⟨rfl, rfl, ?_⟩
  rintro ⟨w, hw⟩
  cases hw

/-- C3 (amended): for every Delivery `d`, `Delivery.toParam` hands the
`Details` list over unchanged, without calling `Detail.toParam`: when the list
is `[x0, ..., xn-1]` the result's list has length `n` and its i-th element is
`xi` itself (a nil element stays nil), in the same order; every element that is
not nil therefore carries the eight field values of `xi`, which are also the
eight field values of the wire value `Detail.toParam` returns for `xi`. -/
theorem Delivery_toParam_details_passed_through (d : Delivery) :
    ∃ p : delivery, Delivery.toParam (some d) = Except.ok (some p) ∧
      p.Details = d.Details ∧
      ∀ xs : List (Option Detail), d.Details = some xs →
        ∃ ys : List (Option Detail), p.Details = some ys ∧ ys.length = xs.length ∧
          ∀ i : Nat, i < xs.length →
            ys[i]? = xs[i]? ∧
            ∀ x : Detail, xs[i]? = some (some x) →
              ys[i]? = some (some x) ∧
              ∃ w : detail, Detail.toParam (some x) = Except.ok (some w) ∧
                w.DetailName = x.DetailName ∧ w.DetailPrice = x.DetailPrice ∧
                w.DetailQuantity = x.DetailQuantity ∧ w.GMOExtend2 = x.GMOExtend2 ∧
                w.GMOExtend3 = x.GMOExtend3 ∧ w.GMOExtend4 = x.GMOExtend4 ∧
                w.DetailBrand = x.DetailBrand ∧ w.DetailCategory = x.DetailCategory := by
  obtain ⟨dc, ds⟩ := d
  have key : ∀ xs : List (Option Detail), ds = some xs →
      ∃ ys : List (Option Detail), ds = some ys ∧ ys.length = xs.length ∧
        ∀ i : Nat, i < xs.length →
          ys[i]? = xs[i]? ∧
          ∀ x : Detail, xs[i]? = some (some x) →
            ys[i]? = some (some x) ∧
            ∃ w : detail, Detail.toParam (some x) = Except.ok (some w) ∧
              w.DetailName = x.DetailName ∧ w.DetailPrice = x.DetailPrice ∧
              w.DetailQuantity = x.DetailQuantity ∧ w.GMOExtend2 = x.GMOExtend2 ∧
              w.GMOExtend3 = x.GMOExtend3 ∧ w.GMOExtend4 = x.GMOExtend4 ∧
              w.DetailBrand = x.DetailBrand ∧ w.DetailCategory = x.DetailCategory := by
    intro xs hxs
    refine ⟨xs, hxs, rfl, ?_⟩
    intro i _
    refine ⟨rfl, ?_⟩
    intro x hx
    exact ⟨hx, _, rfl, rfl, rfl, rfl, rfl, rfl, rfl, rfl, rfl⟩
  cases dc with
  | none => exact ⟨⟨none, ds⟩, rfl, rfl, key⟩
  | some c => exact ⟨_, rfl, rfl, key⟩

/-- C4: for every input value, whatever its strings contain, each of
`Buyer.toParam` (21 fields), `DeliveryCustomer.toParam` (7 fields) and
`Detail.toParam` (8 fields) returns a wire value every field of which equals
the same-named field of the input: nothing is swapped, dropped, defaulted or
validated. -/
theorem toParam_copies_every_field :
    (∀ o : Buyer, ∃ p : buyer, Buyer.toParam (some o) = Except.ok (some p) ∧
      p.ShopTransactionID = o.ShopTransactionID ∧ p.ShopOrderDate = o.ShopOrderDate ∧
      p.FullName = o.FullName ∧ p.FullNameKana = o.FullNameKana ∧
      p.ZipCode = o.ZipCode ∧ p.Address = o.Address ∧
      p.CompanyName = o.CompanyName ∧ p.DepartmentName = o.DepartmentName ∧
      p.Tel1 = o.Tel1 ∧ p.Tel2 = o.Tel2 ∧ p.Email = o.Email ∧ p.Email2 = o.Email2 ∧
      p.BilledAmount = o.BilledAmount ∧ p.GMOExtend1 = o.GMOExtend1 ∧
      p.PaymentType = o.PaymentType ∧ p.Sex = o.Sex ∧ p.BirthDay = o.BirthDay ∧
      p.MemberRegistDate = o.MemberRegistDate ∧ p.BuyCount = o.BuyCount ∧
      p.BuyAmountTotal = o.BuyAmountTotal ∧ p.MemberID = o.MemberID) ∧
    (∀ o : DeliveryCustomer, ∃ p : deliveryCustomer,
      DeliveryCustomer.toParam (some o) = Except.ok (some p) ∧
      p.FullName = o.FullName ∧ p.FullNameKana = o.FullNameKana ∧
      p.ZipCode = o.ZipCode ∧ p.Address = o.Address ∧
      p.CompanyName = o.CompanyName ∧ p.DepartmentName = o.DepartmentName ∧
      p.Tel = o.Tel) ∧
    (∀ o : Detail, ∃ p : detail, Detail.toParam (some o) = Except.ok (some p) ∧
      p.DetailName = o.DetailName ∧ p.DetailPrice = o.DetailPrice ∧
      p.DetailQuantity = o.DetailQuantity ∧ p.GMOExtend2 = o.GMOExtend2 ∧
      p.GMOExtend3 = o.GMOExtend3 ∧ p.GMOExtend4 = o.GMOExtend4 ∧
      p.DetailBrand = o.DetailBrand ∧ p.DetailCategory = o.DetailCategory) := by
  refine ⟨fun o => ⟨_, rfl, ?_⟩, fun o => ⟨_, rfl, ?_⟩, fun o => ⟨_, rfl, ?_⟩⟩ <;>
    repeat' constructor

/-- C5: for every wire register response `w`, `NewRegisterResponseParam`
returns a result and no failure; the result's `Errors` is the list `w.Errors`
(same elements, same order, so a list with elements stays a list with
elements), its `Result` is `w.Result` and its `TransactionResult` is
`w.TransactionResult` (nil stays nil), whatever the three fields hold. -/
theorem NewRegisterResponseParam_in_band (w : registerResponseParam) :
    ∃ p : RegisterResponseParam,
      NewRegisterResponseParam (some w) = Except.ok (some p) ∧
      p.Errors = w.Errors ∧ p.Result = w.Result ∧
      p.TransactionResult = w.TransactionResult ∧
      (p.TransactionResult = none ↔ w.TransactionResult = none) ∧
      (∀ es : List (Option Error), w.Errors = some es → es ≠ [] →
        p.Errors = some es ∧ p.Errors ≠ some [] ∧ p.Errors ≠ none) := by
  refine ⟨_, rfl, rfl, rfl, rfl, Iff.rfl, ?_⟩
  intro es hes hne
  refine ⟨hes, ?_, ?_⟩
  · show w.Errors ≠ some []
    rw [hes]
    intro h
    exact hne (Option.some.inj h)
  · show w.Errors ≠ none
    rw [hes]
    exact Option.some_ne_none es

/-- C6: `NewError` and `NewTransactionResult` copy every field of their
argument and substitute no default: the error code and message, and the shop
transaction id, GMO transaction id and author result, are the ones of the wire
value, also when they are the empty string. -/
theorem NewError_NewTransactionResult_copy :
    (∀ e : gmoError, ∃ p : Error, NewError (some e) = Except.ok (some p) ∧
      p.ErrorCode = e.ErrorCode ∧ p.ErrorMessage = e.ErrorMessage) ∧
    (∀ r : transactionResult, ∃ p : TransactionResult,
      NewTransactionResult (some r) = Except.ok (some p) ∧
      p.ShopTransactionID = r.ShopTransactionID ∧
      p.GMOTransactionID = r.GMOTransactionID ∧ p.AuthorResult = r.AuthorResult) ∧
    NewError (some { ErrorCode := "", ErrorMessage := "" }) =
      Except.ok (some { ErrorCode := "", ErrorMessage := "" }) ∧
    NewTransactionResult
        (some { ShopTransactionID := "", GMOTransactionID := "", AuthorResult := "" }) =
      Except.ok (some { ShopTransactionID := "", GMOTransactionID := "", AuthorResult := "" }) :=
  ⟨fun _ => ⟨_, rfl, rfl, rfl⟩, fun _ => ⟨_, rfl, rfl, rfl, rfl⟩, rfl, rfl⟩

theorem Buyer_toParam_injective : Function.Injective Buyer.toParam := by
  intro a b h
  cases a <;> cases b <;> simp [Buyer.toParam] at h ⊢
  rename_i a b
  cases a; cases b
  simp_all

theorem DeliveryCustomer_toParam_injective : Function.Injective DeliveryCustomer.toParam := by
  intro a b h
  cases a <;> cases b <;> simp [DeliveryCustomer.toParam] at h ⊢
  rename_i a b
  cases a; cases b
  simp_all

theorem Detail_toParam_injective : Function.Injective Detail.toParam := by
  intro a b h
  cases a <;> cases b <;> simp [Detail.toParam] at h ⊢
  rename_i a b
  cases a; cases b
  simp_all

theorem Delivery_toParam_injective : Function.Injective Delivery.toParam := by
  intro a b h
  cases a with
  | none =>
    cases b with
    | none => rfl
    | some b =>
      obtain ⟨dc, ds⟩ := b
      cases dc <;> simp [Delivery.toParam, DeliveryCustomer.toParam] at h
  | some a =>
    cases b with
    | none =>
      obtain ⟨dc, ds⟩ := a
      cases dc <;> simp [Delivery.toParam, DeliveryCustomer.toParam] at h
    | some b =>
      obtain ⟨dca, dsa⟩ := a
      obtain ⟨dcb, dsb⟩ := b
      cases dca <;> cases dcb <;>
        simp [Delivery.toParam, DeliveryCustomer.toParam] at h ⊢
      · exact h
      · rename_i ca cb
        cases ca; cases cb
        simp_all

/-- C7: translation loses nothing: two Delivery values with equal results of
`Delivery.toParam` are equal (same delivery customer, absent or present with
the same fields, and the same `Details` list in the same order), and
`Buyer.toParam`, `DeliveryCustomer.toParam` and `Detail.toParam` are injective
as well. -/
theorem toParam_lossless :
    (∀ a b : Delivery,
      Delivery.toParam (some a) = Delivery.toParam (some b) → a = b) ∧
    (∀ a b : Buyer, Buyer.toParam (some a) = Buyer.toParam (some b) → a = b) ∧
    (∀ a b : DeliveryCustomer,
      DeliveryCustomer.toParam (some a) = DeliveryCustomer.toParam (some b) → a = b) ∧
    (∀ a b : Detail, Detail.toParam (some a) = Detail.toParam (some b) → a = b) ∧
    Function.Injective Delivery.toParam ∧ Function.Injective Buyer.toParam ∧
    Function.Injective DeliveryCustomer.toParam ∧ Function.Injective Detail.toParam :=
  ⟨fun _ _ h => Option.some.inj (Delivery_toParam_injective h),
   fun _ _ h => Option.some.inj (Buyer_toParam_injective h),
   fun _ _ h => Option.some.inj (DeliveryCustomer_toParam_injective h),
   fun _ _ h => Option.some.inj (Detail_toParam_injective h),
   Delivery_toParam_injective, Buyer_toParam_injective,
   DeliveryCustomer_toParam_injective, Detail_toParam_injective⟩

/-- C7 (witness): two deliveries that differ only in the order of their two
details have different translations. -/
theorem toParam_lossless_witness :
    Delivery.toParam
        (some ⟨none, some [some ⟨"a", "1", "1", "", "", "", "", ""⟩, none]⟩) ≠
      Delivery.toParam
        (some ⟨none, some [none, some ⟨"a", "1", "1", "", "", "", "", ""⟩]⟩) :=
  fun h => absurd (toParam_lossless.1 _ _ h) (by decide)

/-- C9 (counterexample): on a nil receiver or argument each of the seven
functions fails with a nil dereference and returns no result. -/
theorem translators_fail_on_nil :
    Buyer.toParam none = Except.error RuntimeError.nilDereference ∧
    Delivery.toParam none = Except.error RuntimeError.nilDereference ∧
    DeliveryCustomer.toParam none = Except.error RuntimeError.nilDereference ∧
    Detail.toParam none = Except.error RuntimeError.nilDereference ∧
    NewRegisterResponseParam none = Except.error RuntimeError.nilDereference ∧
    NewError none = Except.error RuntimeError.nilDereference ∧
    NewTransactionResult none = Except.error RuntimeError.nilDereference ∧
    ¬ ∃ p : buyer, Buyer.toParam none = Except.ok (some p) := by
  refine ⟨rfl, rfl, rfl, rfl, rfl, rfl, rfl, ?_⟩
  rintro ⟨p, hp⟩
  cases hp

/-- C9 (amended): on every receiver or argument that is not nil, also a
Delivery whose `DeliveryCustomer` is nil, each of `Buyer.toParam`,
`Delivery.toParam`, `DeliveryCustomer.toParam`, `Detail.toParam`,
`NewRegisterResponseParam`, `NewError` and `NewTransactionResult` returns a
result that is not nil, without a run-time failure. -/
theorem translators_total_on_present :
    (∀ o : Buyer, ∃ p : buyer, Buyer.toParam (some o) = Except.ok (some p)) ∧
    (∀ o : Delivery, ∃ p : delivery, Delivery.toParam (some o) = Except.ok (some p)) ∧
    (∀ ds : Details, ∃ p : delivery,
      Delivery.toParam (some { DeliveryCustomer := none, Details := ds }) =
        Except.ok (some p)) ∧
    (∀ o : DeliveryCustomer, ∃ p : deliveryCustomer,
      DeliveryCustomer.toParam (some o) = Except.ok (some p)) ∧
    (∀ o : Detail, ∃ p : detail, Detail.toParam (some o) = Except.ok (some p)) ∧
    (∀ o : registerResponseParam, ∃ p : RegisterResponseParam,
      NewRegisterResponseParam (some o) = Except.ok (some p)) ∧
    (∀ o : gmoError, ∃ p : Error, NewError (some o) = Except.ok (some p)) ∧
    (∀ o : transactionResult, ∃ p : TransactionResult,
      NewTransactionResult (some o) = Except.ok (some p)) := by
  refine ⟨fun _ => ⟨_, rfl⟩, ?_, fun _ => ⟨_, rfl⟩, fun _ => ⟨_, rfl⟩, fun _ => ⟨_, rfl⟩,
    fun _ => ⟨_, rfl⟩, fun _ => ⟨_, rfl⟩, fun _ => ⟨_, rfl⟩⟩
  intro o
  obtain ⟨dc, ds⟩ := o
  cases dc with
  | none => exact ⟨_, rfl⟩
  | some c => exact ⟨_, rfl⟩

end Deferred

namespace Aozorabank

/-! ## Theorems about the query string

The order of key names is a total order; the keys of the parameters are the
keys of the populated fields in that order; the keys read back from the query
string are those keys. -/

theorem char_eq_of_toNat_eq {a b : Char} (h : a.toNat = b.toNat) : a = b := by
  rw [← Char.ofNat_toNat a, ← Char.ofNat_toNat b, h]

theorem lexLE_nil_left (b : List Char) : lexLE [] b = true := by
  cases b <;> rfl

theorem lexLE_cons_cons (x y : Char) (xs ys : List Char) :
    lexLE (x :: xs) (y :: ys) = true ↔
      x.toNat < y.toNat ∨ (x.toNat = y.toNat ∧ lexLE xs ys = true) := by
  simp [lexLE]

theorem lexLE_total (a b : List Char) : lexLE a b = true ∨ lexLE b a = true := by
  induction a generalizing b with
  | nil => exact Or.inl (lexLE_nil_left b)
  | cons x xs ih =>
    cases b with
    | nil => exact Or.inr (lexLE_nil_left _)
    | cons y ys =>
      rw [lexLE_cons_cons, lexLE_cons_cons]
      rcases Nat.lt_trichotomy x.toNat y.toNat with h | h | h
      · exact Or.inl (Or.inl h)
      · rcases ih ys with h' | h'
        · exact Or.inl (Or.inr ⟨h, h'⟩)
        · exact Or.inr (Or.inr ⟨h.symm, h'⟩)
      · exact Or.inr (Or.inl h)

theorem lexLE_trans {a b c : List Char} (hab : lexLE a b = true) (hbc : lexLE b c = true) :
    lexLE a c = true := by
  induction a generalizing b c with
  | nil => exact lexLE_nil_left c
  | cons x xs ih =>
    cases b with
    | nil => simp [lexLE] at hab
    | cons y ys =>
      cases c with
      | nil => simp [lexLE] at hbc
      | cons z zs =>
        rw [lexLE_cons_cons] at hab hbc ⊢
        rcases hab with h1 | ⟨h1, h1'⟩ <;> rcases hbc with h2 | ⟨h2, h2'⟩
        · exact Or.inl (by omega)
        · exact Or.inl (by omega)
        · exact Or.inl (by omega)
        · exact Or.inr ⟨by omega, ih h1' h2'⟩

theorem lexLE_antisymm {a b : List Char} (hab : lexLE a b = true) (hba : lexLE b a = true) :
    a = b := by
  induction a generalizing b with
  | nil =>
    cases b with
    | nil => rfl
    | cons y ys => simp [lexLE] at hba
  | cons x xs ih =>
    cases b with
    | nil => simp [lexLE] at hab
    | cons y ys =>
      rw [lexLE_cons_cons] at hab hba
      rcases hab with h1 | ⟨h1, h1'⟩ <;> rcases hba with h2 | ⟨h2, h2'⟩
      · omega
      · omega
      · omega
      · rw [char_eq_of_toNat_eq h1, ih h1' h2']

instance strLE_isTotal : IsTotal String strLE :=
  ⟨fun a b => lexLE_total a.toList b.toList⟩

instance strLE_isTrans : IsTrans String strLE :=
  ⟨fun _ _ _ hab hbc => lexLE_trans hab hbc⟩

instance strLE_isAntisymm : IsAntisymm String strLE :=
  ⟨fun _ _ hab hba => String.ext (lexLE_antisymm hab hba)⟩

instance keyLE_isTotal : IsTotal (String × FieldValue) keyLE :=
  ⟨fun a b => lexLE_total a.1.toList b.1.toList⟩

instance keyLE_isTrans : IsTrans (String × FieldValue) keyLE :=
  ⟨fun _ _ _ hab hbc => lexLE_trans hab hbc⟩

theorem filter_cons_segment {α : Type} (p : α → Bool) (a : α) (l : List α) :
    (a :: l).filter p = (if p a = true then [a] else []) ++ l.filter p := by
  by_cases h : p a = true <;> simp [List.filter, h]

/-- Keys of the populated fields, in the order of the fields of the request. -/
theorem populated_keys_in_field_order (r : GetTransferStatusRequest) :
    ((queryFields r).filter (fun kv => !kv.2.isZero)).map Prod.fst =
      (if r.AccountID = "" then [] else ["accountId"]) ++
      ((if r.QueryKeyClass = 0 then [] else ["queryKeyClass"]) ++
      ((if r.ApplyNo = "" then [] else ["applyNo"]) ++
      ((if r.DateFrom = "" then [] else ["dateFrom"]) ++
      ((if r.DateTo = "" then [] else ["dateTo"]) ++
      ((if r.NextItemKey = "" then [] else ["nextItemKey"]) ++
      ((if r.RequestTransferStatuses = [] then [] else ["requestTransferStatus"]) ++
      ((if r.RequestTransferClass = 0 then [] else ["requestTransferClass"]) ++
      (if r.RequestTransferTerm = 0 then [] else ["requestTransferTerm"])))))))) := by
  unfold queryFields
  simp only [filter_cons_segment, List.filter_nil, List.map_append, List.append_nil,
    FieldValue.isZero, Bool.not_eq_true', beq_eq_false_iff_ne, ne_eq, ite_not,
    apply_ite (List.map Prod.fst), List.map_cons, List.map_nil, List.isEmpty_eq_false,
    List.isEmpty_iff]

theorem segment_sublist (c : Prop) [Decidable c] (k : String) :
    List.Sublist (if c then [] else [k]) [k] := by
  by_cases h : c <;> simp [h]

/-- Keys of the query parameters: the populated fields, sorted by key. -/
theorem queryPairs_keys (r : GetTransferStatusRequest) :
    (queryPairs r).map Prod.fst =
      (if r.AccountID = "" then [] else ["accountId"]) ++
      ((if r.ApplyNo = "" then [] else ["applyNo"]) ++
      ((if r.DateFrom = "" then [] else ["dateFrom"]) ++
      ((if r.DateTo = "" then [] else ["dateTo"]) ++
      ((if r.NextItemKey = "" then [] else ["nextItemKey"]) ++
      ((if r.QueryKeyClass = 0 then [] else ["queryKeyClass"]) ++
      ((if r.RequestTransferClass = 0 then [] else ["requestTransferClass"]) ++
      ((if r.RequestTransferStatuses = [] then [] else ["requestTransferStatus"]) ++
      (if r.RequestTransferTerm = 0 then [] else ["requestTransferTerm"])))))))) := by
  apply List.eq_of_perm_of_sorted (r := strLE)
  · refine (List.Perm.map Prod.fst (List.perm_insertionSort keyLE _)).trans ?_
    rw [populated_keys_in_field_order, ← Multiset.coe_eq_coe]
    simp only [← Multiset.coe_add]
    abel
  · have h := List.sorted_insertionSort keyLE
      ((queryFields r).filter (fun kv => !kv.2.isZero))
    exact List.pairwise_map.mpr h
  · have hs : List.Sorted strLE ["accountId", "applyNo", "dateFrom", "dateTo", "nextItemKey",
        "queryKeyClass", "requestTransferClass", "requestTransferStatus",
        "requestTransferTerm"] := by
      unfold List.Sorted
      decide
    refine List.Pairwise.sublist ?_ hs
    have e : ["accountId", "applyNo", "dateFrom", "dateTo", "nextItemKey",
        "queryKeyClass", "requestTransferClass", "requestTransferStatus",
        "requestTransferTerm"] = ["accountId"] ++ (["applyNo"] ++ (["dateFrom"] ++ (["dateTo"] ++
        (["nextItemKey"] ++ (["queryKeyClass"] ++ (["requestTransferClass"] ++
        (["requestTransferStatus"] ++ ["requestTransferTerm"]))))))) := rfl
    rw [e]
    repeat first
      | exact segment_sublist _ _
      | apply List.Sublist.append (segment_sublist _ _)

theorem hexDigit_no_separator (n : Nat) : hexDigit n ≠ '&' ∧ hexDigit n ≠ '=' := by
  have e : "0123456789ABCDEF".toList =
      ['0', '1', '2', '3', '4', '5', '6', '7', '8', '9', 'A', 'B', 'C', 'D', 'E', 'F'] := rfl
  unfold hexDigit
  rw [e]
  by_cases h : n < 16
  · interval_cases n <;> decide
  · rw [List.getD_eq_default _ _ (by simpa using h)]
    decide

theorem escapeChar_no_separator (c x : Char) (hx : x ∈ escapeChar c) :
    x ≠ '&' ∧ x ≠ '=' := by
  unfold escapeChar at hx
  split_ifs at hx with h1 h2
  · rw [List.mem_singleton] at hx
    subst hx
    constructor <;> intro h <;> subst h <;> exact absurd h1 (by decide)
  · rw [List.mem_singleton] at hx
    subst hx
    decide
  · rw [List.mem_flatMap] at hx
    obtain ⟨b, -, hb⟩ := hx
    simp only [List.mem_cons, List.mem_singleton, List.not_mem_nil, or_false] at hb
    rcases hb with rfl | rfl | rfl
    · decide
    · exact hexDigit_no_separator _
    · exact hexDigit_no_separator _

theorem QueryEscape_no_separator (s : String) (x : Char) (hx : x ∈ QueryEscape s) :
    x ≠ '&' ∧ x ≠ '=' := by
  unfold QueryEscape at hx
  rw [List.mem_flatMap] at hx
  obtain ⟨c, -, hc⟩ := hx
  exact escapeChar_no_separator c x hc

theorem splitAmp_of_no_amp (s : List Char) (h : '&' ∉ s) : splitAmp s = [s] := by
  induction s with
  | nil => rfl
  | cons c cs ih =>
    have hc : c ≠ '&' := fun e => h (by simp [e])
    have hcs : '&' ∉ cs := fun e => h (List.mem_cons_of_mem _ e)
    simp [splitAmp, hc, ih hcs]

theorem splitAmp_append_amp (s t : List Char) (h : '&' ∉ s) :
    splitAmp (s ++ '&' :: t) = s :: splitAmp t := by
  induction s with
  | nil => simp [splitAmp]
  | cons c cs ih =>
    have hc : c ≠ '&' := fun e => h (by simp [e])
    have hcs : '&' ∉ cs := fun e => h (List.mem_cons_of_mem _ e)
    simp [splitAmp, hc, ih hcs]

theorem splitAmp_joinAmp (segs : List (List Char)) (hne : segs ≠ [])
    (h : ∀ s ∈ segs, '&' ∉ s) : splitAmp (joinAmp segs) = segs := by
  induction segs with
  | nil => exact absurd rfl hne
  | cons s rest ih =>
    cases rest with
    | nil => exact splitAmp_of_no_amp s (h s (by simp))
    | cons t rest' =>
      have hs : '&' ∉ s := h s (by simp)
      have ih' := ih (by simp) (fun u hu => h u (List.mem_cons_of_mem _ hu))
      simp only [joinAmp]
      rw [splitAmp_append_amp _ _ hs, ih']

theorem takeWhile_before_eq (k v : List Char) (h : '=' ∉ k) :
    (k ++ '=' :: v).takeWhile (fun c => c != '=') = k := by
  induction k with
  | nil => simp [List.takeWhile]
  | cons c cs ih =>
    have hc : c ≠ '=' := fun e => h (by simp [e])
    have hcs : '=' ∉ cs := fun e => h (List.mem_cons_of_mem _ e)
    have hb : (c != '=') = true := by simp [hc]
    rw [List.cons_append, List.takeWhile_cons, hb]
    simp [ih hcs]

theorem encodePair_no_amp (kv : String × FieldValue) : '&' ∉ encodePair kv := by
  intro hmem
  unfold encodePair at hmem
  rw [List.mem_append, List.mem_cons] at hmem
  rcases hmem with h | h | h
  · exact (QueryEscape_no_separator _ _ h).1 rfl
  · exact absurd h (by decide)
  · exact (QueryEscape_no_separator _ _ h).1 rfl

theorem encodePair_key (kv : String × FieldValue) :
    (encodePair kv).takeWhile (fun c => c != '=') = QueryEscape kv.1 :=
  takeWhile_before_eq _ _ (fun h => (QueryEscape_no_separator _ _ h).2 rfl)

theorem encodePair_nonempty (kv : String × FieldValue) : (encodePair kv).isEmpty = false := by
  unfold encodePair
  cases QueryEscape kv.1 <;> rfl

/-- Keys read back from the query string are the escaped keys of the
parameters, in the same order. -/
theorem queryKeys_rawQuery (r : GetTransferStatusRequest) :
    queryKeys (rawQuery r) = (queryPairs r).map (fun kv => String.mk (QueryEscape kv.1)) := by
  unfold queryKeys rawQuery
  show ((splitAmp (joinAmp ((queryPairs r).map encodePair))).filter
      (fun s => !s.isEmpty)).map (fun s => String.mk (s.takeWhile (fun c => c != '='))) = _
  cases hps : queryPairs r with
  | nil => rfl
  | cons p ps =>
    rw [splitAmp_joinAmp _ (by simp)
      (by
        intro s hs
        rw [List.mem_map] at hs
        obtain ⟨kv, -, rfl⟩ := hs
        exact encodePair_no_amp kv)]
    rw [List.filter_eq_self.mpr
      (by
        intro s hs
        rw [List.mem_map] at hs
        obtain ⟨kv, -, rfl⟩ := hs
        simp [encodePair_nonempty])]
    rw [List.map_map]
    apply List.map_congr_left
    intro kv _
    simp [encodePair_key]

/-- The query string of the first request of `TestGetTransferStatus` is the
reference string of the test (line 38). -/
theorem rawQuery_testRequestOk :
    rawQuery testRequestOk =
      "accountId=111111111111&applyNo=2018072902345678&dateFrom=2018-07-30&dateTo=2018-08-10&nextItemKey=1234567890&queryKeyClass=1&requestTransferClass=1&requestTransferStatus=%5Bmap%5BrequestTransferStatus%3A2%5D%5D&requestTransferTerm=2" := by
  set_option maxRecDepth 100000 in decide

/-- The query string of the second request of `TestGetTransferStatus` is the
reference string of the test (line 51). -/
theorem rawQuery_testRequestRequiredOnly :
    rawQuery testRequestRequiredOnly = "accountId=111111111111&queryKeyClass=1" := by
  decide

/-- Keys the query string of any request contains: one for every populated
field, none for a field with its zero value, sorted by key. -/
theorem queryKeys_rawQuery_populated (r : GetTransferStatusRequest) :
    queryKeys (rawQuery r) =
      (if r.AccountID = "" then [] else ["accountId"]) ++
      ((if r.ApplyNo = "" then [] else ["applyNo"]) ++
      ((if r.DateFrom = "" then [] else ["dateFrom"]) ++
      ((if r.DateTo = "" then [] else ["dateTo"]) ++
      ((if r.NextItemKey = "" then [] else ["nextItemKey"]) ++
      ((if r.QueryKeyClass = 0 then [] else ["queryKeyClass"]) ++
      ((if r.RequestTransferClass = 0 then [] else ["requestTransferClass"]) ++
      ((if r.RequestTransferStatuses = [] then [] else ["requestTransferStatus"]) ++
      (if r.RequestTransferTerm = 0 then [] else ["requestTransferTerm"])))))))) := by
  have e1 : String.mk (QueryEscape "accountId") = "accountId" := by decide
  have e2 : String.mk (QueryEscape "applyNo") = "applyNo" := by decide
  have e3 : String.mk (QueryEscape "dateFrom") = "dateFrom" := by decide
  have e4 : String.mk (QueryEscape "dateTo") = "dateTo" := by decide
  have e5 : String.mk (QueryEscape "nextItemKey") = "nextItemKey" := by decide
  have e6 : String.mk (QueryEscape "queryKeyClass") = "queryKeyClass" := by decide
  have e7 : String.mk (QueryEscape "requestTransferClass") = "requestTransferClass" := by
    decide
  have e8 : String.mk (QueryEscape "requestTransferStatus") = "requestTransferStatus" := by
    decide
  have e9 : String.mk (QueryEscape "requestTransferTerm") = "requestTransferTerm" := by
    decide
  have hmap : (queryPairs r).map (fun kv => String.mk (QueryEscape kv.1)) =
      ((queryPairs r).map Prod.fst).map (fun k => String.mk (QueryEscape k)) := by
    rw [List.map_map]
    rfl
  rw [queryKeys_rawQuery, hmap, queryPairs_keys]
  simp only [List.map_append, apply_ite (List.map (fun k => String.mk (QueryEscape k))),
    List.map_cons, List.map_nil, e1, e2, e3, e4, e5, e6, e7, e8, e9]

theorem nine_keys_strictly_sorted :
    List.Pairwise (fun a b : String => strLE a b ∧ a ≠ b)
      ["accountId", "applyNo", "dateFrom", "dateTo", "nextItemKey", "queryKeyClass",
        "requestTransferClass", "requestTransferStatus", "requestTransferTerm"] := by
  decide

/-- C10: for every GetTransferStatusRequest with its required fields set
(`AccountID` and `QueryKeyClass`, the two fields every request of
`TestGetTransferStatus` sets and the specification calls required), the query
string contains exactly the keys of the two required fields plus the keys of
the populated optional fields, sorted lexicographically by key name, with no
key for an optional field that has its zero value; the access token has no key
and does not change the query string; for `AccountID = "111111111111"` and
`QueryKeyClass = 1` only, the query string is
`accountId=111111111111&queryKeyClass=1`. -/
theorem rawQuery_keys_of_request (r : GetTransferStatusRequest)
    (hAccount : r.AccountID ≠ "") (hClass : r.QueryKeyClass ≠ 0) :
    queryKeys (rawQuery r) =
      ["accountId"] ++
      ((if r.ApplyNo = "" then [] else ["applyNo"]) ++
      ((if r.DateFrom = "" then [] else ["dateFrom"]) ++
      ((if r.DateTo = "" then [] else ["dateTo"]) ++
      ((if r.NextItemKey = "" then [] else ["nextItemKey"]) ++
      (["queryKeyClass"] ++
      ((if r.RequestTransferClass = 0 then [] else ["requestTransferClass"]) ++
      ((if r.RequestTransferStatuses = [] then [] else ["requestTransferStatus"]) ++
      (if r.RequestTransferTerm = 0 then [] else ["requestTransferTerm"])))))))) ∧
    List.Pairwise (fun a b : String => strLE a b ∧ a ≠ b) (queryKeys (rawQuery r)) ∧
    (∀ k : String, k ∈ queryKeys (rawQuery r) →
      k ∈ ["accountId", "applyNo", "dateFrom", "dateTo", "nextItemKey", "queryKeyClass",
        "requestTransferClass", "requestTransferStatus", "requestTransferTerm"]) ∧
    (∀ token : String, rawQuery { r with AccessToken := token } = rawQuery r) ∧
    (∀ token : String,
      rawQuery
          { AccessToken := token, AccountID := "111111111111", QueryKeyClass := 1, ApplyNo := "", DateFrom := "", DateTo := "", NextItemKey := "", RequestTransferStatuses := [], RequestTransferClass := 0, RequestTransferTerm := 0 } =
        "accountId=111111111111&queryKeyClass=1") := by
  have hsub : List.Sublist (queryKeys (rawQuery r))
      ["accountId", "applyNo", "dateFrom", "dateTo", "nextItemKey", "queryKeyClass",
        "requestTransferClass", "requestTransferStatus", "requestTransferTerm"] := by
    rw [queryKeys_rawQuery_populated]
    have e : ["accountId", "applyNo", "dateFrom", "dateTo", "nextItemKey",
        "queryKeyClass", "requestTransferClass", "requestTransferStatus",
        "requestTransferTerm"] = ["accountId"] ++ (["applyNo"] ++ (["dateFrom"] ++ (["dateTo"] ++
        (["nextItemKey"] ++ (["queryKeyClass"] ++ (["requestTransferClass"] ++
        (["requestTransferStatus"] ++ ["requestTransferTerm"]))))))) := rfl
    rw [e]
    repeat first
      | exact segment_sublist _ _
      | apply List.Sublist.append (segment_sublist _ _)
  refine ⟨?_, List.Pairwise.sublist hsub nine_keys_strictly_sorted,
    fun k hk => hsub.subset hk, fun _ => rfl, fun _ => rfl⟩
  rw [queryKeys_rawQuery_populated, if_neg hAccount, if_neg hClass]

/-- C10 (witness): the first request of `TestGetTransferStatus` has both
required fields and every optional field populated; its query string has the
nine keys in sorted order. -/
theorem rawQuery_keys_of_request_witness :
    testRequestOk.AccountID ≠ "" ∧ testRequestOk.QueryKeyClass ≠ 0 ∧
    queryKeys (rawQuery testRequestOk) =
      ["accountId", "applyNo", "dateFrom", "dateTo", "nextItemKey", "queryKeyClass",
        "requestTransferClass", "requestTransferStatus", "requestTransferTerm"] :=
  ⟨by decide, by decide,
    (rawQuery_keys_of_request testRequestOk (by decide) (by decide)).1.trans (by decide)⟩

end Aozorabank
